import Mathlib

/-!
# `addTask` (static/js/taskApi.js)

A shallow embedding of the single function of the repository, the asynchronous
helper `addTask(name, description)`, together with the parts of the JavaScript
host it touches: `JSON.stringify` on a record of two strings, `fetch`, the
`Response` members `ok`, `status` and `json()`, the property read `data.task`,
`new Error(..)` and `console.error`.

The host is a parameter (`Host`): what `fetch` and `response.json()` settle to is
not decided by the repository.  Every run yields the way the returned promise
settles and the list of host interactions, in the order they happen.
-/

namespace TaskApi

/-! ## JavaScript values -/

/-- A JavaScript Number.  Every finite double is a rational; the remaining
doubles are listed.  `addTask` never inspects a number of the response body. -/
inductive JsNumber where
  | finite (q : Rat)
  | negZero
  | posInf
  | negInf
  | nan

/-- The JavaScript values that occur around `addTask`: the values `JSON.parse`
produces, `undefined`, and Error objects (`name` is what `error.name` reads,
`message` what `error.message` reads, `own` the properties that the code which
made the error has put on it; what an engine attaches by itself, such as the
`stack` of V8, is not represented).  The own properties of an object are listed
in creation order, each key once. -/
inductive JsValue where
  | undefined
  | null
  | bool (b : Bool)
  | num (n : JsNumber)
  | str (s : String)
  | arr (items : List JsValue)
  | obj (props : List (String × JsValue))
  | error (name : String) (message : String) (own : List (String × JsValue))

/-- How an awaited promise settles: fulfilled with a value, rejected with a
reason (any JavaScript value can be thrown), or never. -/
inductive Await (α : Type) where
  | fulfilled (value : α)
  | rejected (reason : JsValue)
  | pending

/-- The two arguments of `fetch(url, init)` as `addTask` builds them. -/
structure Request where
  url : String
  method : String
  headers : List (String × String)
  body : String

/-- The members of the `Response` that `addTask` uses: the properties `ok` and
`status` (an integer from 0 to 999 in the Fetch standard) and how the promise
of `response.json()` settles. -/
structure Response where
  ok : Bool
  status : Nat
  json : Await JsValue

/-- The host of one run: `fetch`, and the engine-specific wording of the
TypeError raised by a property read on `null` or `undefined`. -/
structure Host where
  fetch : Request → Await Response
  typeErrorMessage : JsValue → String

/-- Host interactions of a run. -/
inductive Event where
  | fetch (request : Request)
  | json
  | consoleError (args : List JsValue)

/-- How a block of statements completes inside an async function. -/
inductive Completion where
  | returned (value : JsValue)
  | threw (error : JsValue)
  | pending

/-! ## `JSON.stringify` on a record of strings -/

/-- `UnicodeEscape(C)`: a backslash, `u`, and four lower-case hexadecimal digits. -/
def unicodeEscape (c : Char) : List Char :=
  [Char.ofNat 92, Char.ofNat 117,
   Nat.digitChar (c.toNat / 4096 % 16), Nat.digitChar (c.toNat / 256 % 16),
   Nat.digitChar (c.toNat / 16 % 16), Nat.digitChar (c.toNat % 16)]

/-- One code point of ECMAScript `QuoteJSONString`: the seven two-character
escapes of its table, `UnicodeEscape` below U+0020, the code point itself
otherwise.  (A `Char` is never a lone surrogate, the other escaped case.) -/
def quoteChar (c : Char) : List Char :=
  if c.toNat = 8 then [Char.ofNat 92, Char.ofNat 98]
  else if c.toNat = 9 then [Char.ofNat 92, Char.ofNat 116]
  else if c.toNat = 10 then [Char.ofNat 92, Char.ofNat 110]
  else if c.toNat = 12 then [Char.ofNat 92, Char.ofNat 102]
  else if c.toNat = 13 then [Char.ofNat 92, Char.ofNat 114]
  else if c.toNat = 34 then [Char.ofNat 92, Char.ofNat 34]
  else if c.toNat = 92 then [Char.ofNat 92, Char.ofNat 92]
  else if c.toNat < 32 then unicodeEscape c
  else [c]

/-- The characters of `QuoteJSONString(value)` between the two quotation marks. -/
def quoteChars : List Char → List Char
  | [] => []
  | c :: cs => quoteChar c ++ quoteChars cs

/-- ECMAScript `QuoteJSONString(value)`. -/
def quoteJSONString (value : String) : String :=
  String.mk (Char.ofNat 34 :: (quoteChars value.data ++ [Char.ofNat 34]))

/-- The members of `SerializeJSONObject` for string-valued properties, without
indentation: `key:value`, joined by commas. -/
def serializeMembers : List (String × String) → String
  | [] => ""
  | [(k, v)] => quoteJSONString k ++ ":" ++ quoteJSONString v
  | (k, v) :: rest => quoteJSONString k ++ ":" ++ quoteJSONString v ++ "," ++ serializeMembers rest

/-- `JSON.stringify(o)` for an object `o` whose own enumerable properties, in
creation order, are `props`, all holding strings. -/
def jsonStringify (props : List (String × String)) : String :=
  "\x7b" ++ serializeMembers props ++ "\x7d"

/-! ## The other host operations -/

/-- `Number::toString` of a non-negative integer below 10^21, which every
status is: its decimal digits. -/
def numberToString (n : Nat) : String :=
  Nat.repr n

/-- `new Error(message)`: `name` is inherited from `Error.prototype`, and the
caller of the constructor puts no property of its own on the error. -/
def newError (message : String) : JsValue :=
  JsValue.error "Error" message []

/-- The property read `data.task`: a TypeError on `null` and `undefined`, the
own property `task` of an object when it has one, `undefined` otherwise (no
prototype of a primitive, array or plain object has a member `task`). -/
def readTask (host : Host) : JsValue → Except JsValue JsValue
  | JsValue.undefined =>
      Except.error (JsValue.error "TypeError" (host.typeErrorMessage JsValue.undefined) [])
  | JsValue.null =>
      Except.error (JsValue.error "TypeError" (host.typeErrorMessage JsValue.null) [])
  | JsValue.obj props => Except.ok ((props.lookup "task").getD JsValue.undefined)
  | JsValue.error _ _ own => Except.ok ((own.lookup "task").getD JsValue.undefined)
  | _ => Except.ok JsValue.undefined

/-! ## `addTask` -/

/-- The request of `addTask`: the first argument of `fetch` and its `init`. -/
def addTaskRequest (name description : String) : Request :=
  { url := "/api/tasks"
    method := "POST"
    headers := [("Content-Type", "application/json")]
    body := jsonStringify [("name", name), ("description", description)] }

/-- The `try` block of `addTask`. -/
def addTaskTry (host : Host) (name description : String) : Completion × List Event :=
  let request := addTaskRequest name description
  match host.fetch request with
  | Await.rejected error => (Completion.threw error, [Event.fetch request])
  | Await.pending => (Completion.pending, [Event.fetch request])
  | Await.fulfilled response =>
    if !response.ok then
      (Completion.threw (newError ("HTTP error! status: " ++ numberToString response.status)),
        [Event.fetch request])
    else
      match response.json with
      | Await.rejected error => (Completion.threw error, [Event.fetch request, Event.json])
      | Await.pending => (Completion.pending, [Event.fetch request, Event.json])
      | Await.fulfilled data =>
        match readTask host data with
        | Except.error error => (Completion.threw error, [Event.fetch request, Event.json])
        | Except.ok task => (Completion.returned task, [Event.fetch request, Event.json])

/-- The first argument of `console.error` in the `catch` clause. -/
def catchLabel : String := "添加任务时出错:"

/-- `addTask(name, description)`: the `try` block, and the `catch` clause
around it, which calls `console.error` and throws the caught value again.  The
result is how the promise settles and the host interactions in order. -/
def addTask (host : Host) (name description : String) : Await JsValue × List Event :=
  match addTaskTry host name description with
  | (Completion.returned value, trace) => (Await.fulfilled value, trace)
  | (Completion.pending, trace) => (Await.pending, trace)
  | (Completion.threw error, trace) =>
      (Await.rejected error, trace ++ [Event.consoleError [JsValue.str catchLabel, error]])

/-! ## Reading a run -/

/-- The event is a call of `fetch`. -/
def Event.isFetch : Event → Bool
  | Event.fetch _ => true
  | _ => false

/-- The event is a call of `response.json()`, the only read of the body. -/
def Event.isJson : Event → Bool
  | Event.json => true
  | _ => false

/-- The event is a call of `console.error`. -/
def Event.isConsoleError : Event → Bool
  | Event.consoleError _ => true
  | _ => false

/-- The code point that the two-character escape ending in `x` stands for
(read back from the table of `quoteChar`). -/
def escapeCode (x : Char) : Nat :=
  if x.toNat = 98 then 8 else if x.toNat = 116 then 9 else if x.toNat = 110 then 10
  else if x.toNat = 102 then 12 else if x.toNat = 114 then 13 else x.toNat

/-- The value of a list of decimal digits, most significant first. -/
def decimalValue (digits : List Char) : Nat :=
  digits.foldl (fun acc c => acc * 10 + (c.toNat - 48)) 0

/-- The status code that an error carries, as a caller reads it: for an Error
object whose message is `HTTP error! status: ` followed by decimal digits, the
number these digits write; nothing for every other value. -/
def carriedStatus : JsValue → Option Nat
  | JsValue.error _ message _ =>
      if message.data.take 20 = "HTTP error! status: ".data ∧ message.data.drop 20 ≠ [] ∧
          (message.data.drop 20).all Char.isDigit = true then
        some (decimalValue (message.data.drop 20))
      else none
  | _ => none

/-! ## Hosts of the scenarios -/

/-- A host whose `fetch` settles the same way for every request; the TypeError
wording is the one of V8. -/
def hostSettling (reply : Await Response) : Host :=
  { fetch := fun _ => reply
    typeErrorMessage := fun v =>
      match v with
      | JsValue.null => "Cannot read properties of null (reading \x27task\x27)"
      | _ => "Cannot read properties of undefined (reading \x27task\x27)" }

/-- A reply with the given status, `ok` as the Fetch standard derives it from
the status, and the given settlement of `json()`. -/
def replyWith (status : Nat) (json : Await JsValue) : Response :=
  { ok := decide (200 ≤ status ∧ status < 300), status := status, json := json }

/-- The task of scenario 3: `id` 2, empty `name` and `description`. -/
def emptyTask : JsValue :=
  JsValue.obj [("id", JsValue.num (JsNumber.finite 2)), ("name", JsValue.str ""),
    ("description", JsValue.str "")]

/-- The SyntaxError of `response.json()` on a body that is not JSON (V8 wording). -/
def syntaxError : JsValue :=
  JsValue.error "SyntaxError" "Unexpected token < in JSON at position 0" []

/-- The TypeError of `fetch` when the connection fails (Chrome wording). -/
def failedToFetch : JsValue :=
  JsValue.error "TypeError" "Failed to fetch" []

/-! ## The paths of `addTask` -/

theorem addTask_of_fetch_rejected (host : Host) (name description : String) (e : JsValue)
    (hfetch : host.fetch (addTaskRequest name description) = Await.rejected e) :
    addTask host name description =
      (Await.rejected e, [Event.fetch (addTaskRequest name description),
        Event.consoleError [JsValue.str catchLabel, e]]) := by
  simp [addTask, addTaskTry, hfetch]

theorem addTask_of_fetch_pending (host : Host) (name description : String)
    (hfetch : host.fetch (addTaskRequest name description) = Await.pending) :
    addTask host name description =
      (Await.pending, [Event.fetch (addTaskRequest name description)]) := by
  simp [addTask, addTaskTry, hfetch]

theorem addTask_of_not_ok (host : Host) (name description : String) (response : Response)
    (hfetch : host.fetch (addTaskRequest name description) = Await.fulfilled response)
    (hok : response.ok = false) :
    addTask host name description =
      (Await.rejected (newError ("HTTP error! status: " ++ numberToString response.status)),
        [Event.fetch (addTaskRequest name description),
         Event.consoleError [JsValue.str catchLabel,
           newError ("HTTP error! status: " ++ numberToString response.status)]]) := by
  simp [addTask, addTaskTry, hfetch, hok]

theorem addTask_of_json_rejected (host : Host) (name description : String)
    (response : Response) (p : JsValue)
    (hfetch : host.fetch (addTaskRequest name description) = Await.fulfilled response)
    (hok : response.ok = true) (hjson : response.json = Await.rejected p) :
    addTask host name description =
      (Await.rejected p, [Event.fetch (addTaskRequest name description), Event.json,
        Event.consoleError [JsValue.str catchLabel, p]]) := by
  simp [addTask, addTaskTry, hfetch, hok, hjson]

theorem addTask_of_json_pending (host : Host) (name description : String)
    (response : Response)
    (hfetch : host.fetch (addTaskRequest name description) = Await.fulfilled response)
    (hok : response.ok = true) (hjson : response.json = Await.pending) :
    addTask host name description =
      (Await.pending, [Event.fetch (addTaskRequest name description), Event.json]) := by
  simp [addTask, addTaskTry, hfetch, hok, hjson]

theorem addTask_of_read_ok (host : Host) (name description : String)
    (response : Response) (data task : JsValue)
    (hfetch : host.fetch (addTaskRequest name description) = Await.fulfilled response)
    (hok : response.ok = true) (hjson : response.json = Await.fulfilled data)
    (hread : readTask host data = Except.ok task) :
    addTask host name description =
      (Await.fulfilled task, [Event.fetch (addTaskRequest name description), Event.json]) := by
  simp [addTask, addTaskTry, hfetch, hok, hjson, hread]

theorem addTask_of_read_error (host : Host) (name description : String)
    (response : Response) (data e : JsValue)
    (hfetch : host.fetch (addTaskRequest name description) = Await.fulfilled response)
    (hok : response.ok = true) (hjson : response.json = Await.fulfilled data)
    (hread : readTask host data = Except.error e) :
    addTask host name description =
      (Await.rejected e, [Event.fetch (addTaskRequest name description), Event.json,
        Event.consoleError [JsValue.str catchLabel, e]]) := by
  simp [addTask, addTaskTry, hfetch, hok, hjson, hread]

/-- The result of `addTask` in terms of the completion of its `try` block. -/
theorem addTask_eq_of_try (host : Host) (name description : String) :
    addTask host name description =
      match (addTaskTry host name description).1 with
      | Completion.returned value => (Await.fulfilled value, (addTaskTry host name description).2)
      | Completion.pending => (Await.pending, (addTaskTry host name description).2)
      | Completion.threw error =>
          (Await.rejected error, (addTaskTry host name description).2 ++
            [Event.consoleError [JsValue.str catchLabel, error]]) := by
  unfold addTask
  rcases h : addTaskTry host name description with ⟨c, trace⟩
  cases c <;> rfl

/-- The `try` block calls `fetch` first, once, and never `console.error`. -/
theorem addTaskTry_trace (host : Host) (name description : String) :
    (addTaskTry host name description).2 = [Event.fetch (addTaskRequest name description)] ∨
    (addTaskTry host name description).2 =
      [Event.fetch (addTaskRequest name description), Event.json] := by
  unfold addTaskTry
  simp only []
  split
  · simp
  · simp
  · split
    · simp
    · split
      · simp
      · simp
      · split <;> simp

/-! ## The decimal digits of a status -/

theorem digitChar_value (k : Nat) (h : k < 10) : (Nat.digitChar k).toNat - 48 = k := by
  interval_cases k <;> rfl

theorem foldl_toDigitsCore (fuel : Nat) : ∀ (n : Nat) (ds : List Char), n < fuel →
    (Nat.toDigitsCore 10 fuel n ds).foldl (fun acc c => acc * 10 + (c.toNat - 48)) 0 =
      ds.foldl (fun acc c => acc * 10 + (c.toNat - 48)) n := by
  induction fuel with
  | zero => intro n ds h; omega
  | succ fuel ih =>
    intro n ds h
    have hd : (Nat.digitChar (n % 10)).toNat - 48 = n % 10 :=
      digitChar_value (n % 10) (Nat.mod_lt n (by decide))
    unfold Nat.toDigitsCore
    simp only []
    split
    · rename_i h0
      have hn : n % 10 = n := by omega
      simp only [List.foldl_cons, hd, Nat.zero_mul, Nat.zero_add]
      rw [hn]
    · rename_i h0
      rw [ih (n / 10) _ (by omega)]
      have hn : n / 10 * 10 + n % 10 = n := by omega
      simp only [List.foldl_cons, hd, hn]

theorem decimalValue_repr (n : Nat) : decimalValue (Nat.repr n).data = n := by
  unfold decimalValue Nat.repr Nat.toDigits
  simp only [List.asString]
  rw [foldl_toDigitsCore (n + 1) n [] (by omega)]
  rfl

theorem digitChar_isDigit (k : Nat) (h : k < 10) : (Nat.digitChar k).isDigit = true := by
  interval_cases k <;> rfl

theorem toDigitsCore_all_isDigit (fuel : Nat) : ∀ (n : Nat) (ds : List Char),
    ds.all Char.isDigit = true → (Nat.toDigitsCore 10 fuel n ds).all Char.isDigit = true := by
  induction fuel with
  | zero => intro n ds h; exact h
  | succ fuel ih =>
    intro n ds h
    have hd : (Nat.digitChar (n % 10)).isDigit = true :=
      digitChar_isDigit (n % 10) (Nat.mod_lt n (by decide))
    unfold Nat.toDigitsCore
    simp only []
    split
    · simp only [List.all_cons, hd, h, Bool.and_self]
    · exact ih (n / 10) _ (by simp only [List.all_cons, hd, h, Bool.and_self])

theorem toDigitsCore_ne_nil (fuel : Nat) : ∀ (n : Nat) (ds : List Char),
    ds ≠ [] → Nat.toDigitsCore 10 fuel n ds ≠ [] := by
  induction fuel with
  | zero => intro n ds h; exact h
  | succ fuel ih =>
    intro n ds h
    unfold Nat.toDigitsCore
    simp only []
    split
    · exact List.cons_ne_nil _ _
    · exact ih (n / 10) _ (List.cons_ne_nil _ _)

theorem repr_ne_nil (n : Nat) : (Nat.repr n).data ≠ [] := by
  unfold Nat.repr Nat.toDigits Nat.toDigitsCore
  simp only [List.asString]
  split
  · exact List.cons_ne_nil _ _
  · exact toDigitsCore_ne_nil _ _ _ (List.cons_ne_nil _ _)

theorem repr_all_isDigit (n : Nat) : (Nat.repr n).data.all Char.isDigit = true := by
  unfold Nat.repr Nat.toDigits
  simp only [List.asString]
  exact toDigitsCore_all_isDigit _ _ _ rfl

/-- The status is read back from the error thrown on a reply that is not ok. -/
theorem carriedStatus_newError (status : Nat) :
    carriedStatus (newError ("HTTP error! status: " ++ numberToString status)) =
      some status := by
  have hlen : "HTTP error! status: ".data.length = 20 := rfl
  have htake : (("HTTP error! status: " ++ numberToString status).data).take 20 =
      "HTTP error! status: ".data := by
    rw [String.data_append]
    exact List.take_left' hlen
  have hdrop : (("HTTP error! status: " ++ numberToString status).data).drop 20 =
      (Nat.repr status).data := by
    rw [String.data_append]
    exact List.drop_left' hlen
  unfold carriedStatus newError
  simp only [htake, hdrop, repr_ne_nil, repr_all_isDigit, ne_eq, not_false_eq_true,
    and_self, if_true, decimalValue_repr]

/-- Errors of another origin carry no status: the TypeError of a failed
connection, the SyntaxError of a body that is not JSON, and an Error whose
message stops after the label. -/
theorem carriedStatus_other_errors :
    carriedStatus failedToFetch = none ∧ carriedStatus syntaxError = none ∧
    carriedStatus (newError "HTTP error! status: ") = none ∧
    carriedStatus (newError "HTTP error! status: 500") = some 500 := by
  decide

/-! ## `QuoteJSONString` can be read back -/

theorem char_eq_of_toNat_eq (a b : Char) (h : a.toNat = b.toNat) : a = b := by
  apply Char.ext
  apply UInt32.ext
  exact h

theorem digitChar_inj16 : ∀ a : Fin 16, ∀ b : Fin 16,
    Nat.digitChar a.val = Nat.digitChar b.val → a = b := by
  decide

theorem digitChar_inj (a b : Nat) (ha : a < 16) (hb : b < 16)
    (h : Nat.digitChar a = Nat.digitChar b) : a = b := by
  have := digitChar_inj16 ⟨a, ha⟩ ⟨b, hb⟩ h
  exact congrArg Fin.val this


theorem quoteChar_shape (c : Char) :
    (quoteChar c = [c] ∧ c.toNat ≠ 92 ∧ c.toNat ≠ 34) ∨
    (∃ x, quoteChar c = [Char.ofNat 92, x] ∧ x.toNat ≠ 117 ∧ escapeCode x = c.toNat) ∨
    (quoteChar c = unicodeEscape c ∧ c.toNat < 32) := by
  unfold quoteChar
  split_ifs with h1 h2 h3 h4 h5 h6 h7 h8
  · exact Or.inr (Or.inl ⟨_, rfl, by decide, by rw [h1]; rfl⟩)
  · exact Or.inr (Or.inl ⟨_, rfl, by decide, by rw [h2]; rfl⟩)
  · exact Or.inr (Or.inl ⟨_, rfl, by decide, by rw [h3]; rfl⟩)
  · exact Or.inr (Or.inl ⟨_, rfl, by decide, by rw [h4]; rfl⟩)
  · exact Or.inr (Or.inl ⟨_, rfl, by decide, by rw [h5]; rfl⟩)
  · exact Or.inr (Or.inl ⟨_, rfl, by decide, by rw [h6]; rfl⟩)
  · exact Or.inr (Or.inl ⟨_, rfl, by decide, by rw [h7]; rfl⟩)
  · exact Or.inr (Or.inr ⟨rfl, h8⟩)
  · exact Or.inl ⟨rfl, h7, h6⟩

theorem quoteChar_append_inj (c d : Char) (X Y : List Char)
    (h : quoteChar c ++ X = quoteChar d ++ Y) : c = d ∧ X = Y := by
  rcases quoteChar_shape c with ⟨hc, c92, c34⟩ | ⟨x, hc, hx, hxc⟩ | ⟨hc, c32⟩ <;>
  rcases quoteChar_shape d with ⟨hd, d92, d34⟩ | ⟨y, hd, hy, hyd⟩ | ⟨hd, d32⟩ <;>
  rw [hc, hd] at h
  · simpa using h
  · simp only [List.cons_append, List.nil_append, List.cons.injEq] at h
    exact absurd (by rw [h.1]; rfl) c92
  · simp only [unicodeEscape, List.cons_append, List.nil_append, List.cons.injEq] at h
    exact absurd (by rw [h.1]; rfl) c92
  · simp only [List.cons_append, List.nil_append, List.cons.injEq] at h
    exact absurd (by rw [← h.1]; rfl) d92
  · simp only [List.cons_append, List.nil_append, List.cons.injEq, true_and] at h
    refine ⟨char_eq_of_toNat_eq _ _ ?_, h.2⟩
    rw [← hxc, ← hyd, h.1]
  · simp only [unicodeEscape, List.cons_append, List.nil_append, List.cons.injEq, true_and] at h
    exact absurd (by rw [h.1]; rfl) hx
  · simp only [unicodeEscape, List.cons_append, List.nil_append, List.cons.injEq] at h
    exact absurd (by rw [← h.1]; rfl) d92
  · simp only [unicodeEscape, List.cons_append, List.nil_append, List.cons.injEq, true_and] at h
    exact absurd (by rw [← h.1]; rfl) hy
  · simp only [unicodeEscape, List.cons_append, List.nil_append, List.cons.injEq, true_and] at h
    obtain ⟨-, -, h16, h1, hXY⟩ := h
    have e16 := digitChar_inj _ _ (Nat.mod_lt _ (by decide)) (Nat.mod_lt _ (by decide)) h16
    have e1 := digitChar_inj _ _ (Nat.mod_lt _ (by decide)) (Nat.mod_lt _ (by decide)) h1
    exact ⟨char_eq_of_toNat_eq _ _ (by omega), hXY⟩

theorem quoteChar_head (c : Char) : ∃ x t, quoteChar c = x :: t ∧ x.toNat ≠ 34 := by
  rcases quoteChar_shape c with ⟨hc, _, c34⟩ | ⟨x, hc, _, _⟩ | ⟨hc, _⟩
  · exact ⟨_, _, hc, c34⟩
  · exact ⟨_, _, hc, by decide⟩
  · exact ⟨_, _, hc, by decide⟩

theorem quoteChars_append_inj : ∀ (a b : List Char) (r s : List Char),
    quoteChars a ++ Char.ofNat 34 :: r = quoteChars b ++ Char.ofNat 34 :: s → a = b ∧ r = s
  | [], [], r, s, h => by simpa [quoteChars] using h
  | [], d :: b, r, s, h => by
      obtain ⟨x, t, hx, h34⟩ := quoteChar_head d
      simp only [quoteChars, hx, List.nil_append, List.cons_append, List.cons.injEq] at h
      exact absurd (by rw [← h.1]; rfl) h34
  | c :: a, [], r, s, h => by
      obtain ⟨x, t, hx, h34⟩ := quoteChar_head c
      simp only [quoteChars, hx, List.nil_append, List.cons_append, List.cons.injEq] at h
      exact absurd (by rw [h.1]; rfl) h34
  | c :: a, d :: b, r, s, h => by
      simp only [quoteChars, List.append_assoc] at h
      obtain ⟨hcd, hrest⟩ := quoteChar_append_inj c d _ _ h
      obtain ⟨hab, hrs⟩ := quoteChars_append_inj a b r s hrest
      exact ⟨by rw [hcd, hab], hrs⟩

theorem body_data (name description : String) :
    (addTaskRequest name description).body.data =
      "\x7b\"name\":\"".data ++ (quoteChars name.data ++ Char.ofNat 34 ::
        (",\"description\":\"".data ++ (quoteChars description.data ++
          Char.ofNat 34 :: "\x7d".data))) := by
  simp only [addTaskRequest, jsonStringify, serializeMembers, quoteJSONString,
    String.data_append, List.append_assoc, List.cons_append, List.nil_append]
  rfl

theorem body_inj (n d n2 d2 : String)
    (h : (addTaskRequest n d).body = (addTaskRequest n2 d2).body) : n = n2 ∧ d = d2 := by
  have h2 := congrArg String.data h
  rw [body_data, body_data] at h2
  have h3 := List.append_cancel_left h2
  obtain ⟨hn, h4⟩ := quoteChars_append_inj _ _ _ _ h3
  have h5 := List.append_cancel_left h4
  obtain ⟨hd, -⟩ := quoteChars_append_inj _ _ _ _ h5
  exact ⟨String.ext hn, String.ext hd⟩

/-! ## Facts about every run -/

/-- The run of `addTask` begins with the `try` block's run; `console.error`
can only follow it. -/
theorem addTask_trace (host : Host) (name description : String) :
    (addTask host name description).2 = (addTaskTry host name description).2 ∨
    ∃ e, (addTaskTry host name description).1 = Completion.threw e ∧
      (addTask host name description).1 = Await.rejected e ∧
      (addTask host name description).2 = (addTaskTry host name description).2 ++
        [Event.consoleError [JsValue.str catchLabel, e]] := by
  rw [addTask_eq_of_try]
  cases h : (addTaskTry host name description).1 with
  | returned value => exact Or.inl rfl
  | pending => exact Or.inl rfl
  | threw e => exact Or.inr ⟨e, rfl, rfl, rfl⟩

theorem addTask_trace_head (host : Host) (name description : String) :
    (addTask host name description).2.head? =
      some (Event.fetch (addTaskRequest name description)) := by
  rcases addTask_trace host name description with h | ⟨e, -, -, h⟩ <;>
  rcases addTaskTry_trace host name description with h2 | h2 <;>
  rw [h, h2] <;> rfl

theorem addTaskRequest_body (name description : String) :
    (addTaskRequest name description).body =
      "\x7b\"name\":" ++ quoteJSONString name ++ ",\"description\":" ++
        quoteJSONString description ++ "\x7d" := by
  apply String.ext
  simp only [addTaskRequest, jsonStringify, serializeMembers, quoteJSONString,
    String.data_append, List.append_assoc, List.cons_append, List.nil_append]
  rfl

theorem statusMessage_inj (s1 s2 : Nat)
    (h : "HTTP error! status: " ++ numberToString s1 =
      "HTTP error! status: " ++ numberToString s2) : s1 = s2 := by
  have h2 := congrArg String.data h
  rw [String.data_append, String.data_append] at h2
  have h3 := congrArg decimalValue (List.append_cancel_left h2)
  unfold numberToString at h3
  rwa [decimalValue_repr, decimalValue_repr] at h3

/-! ## The contract of `addTask` -/

/-- Claim C1. For all strings `name` and `description` (the empty ones too) and
every reply with `ok` true whose body parses to an object with a `task` field
holding `t`, `addTask` resolves to exactly `t`; the run is the request and the
read of the body, and nothing is sent to `console.error`. -/
theorem addTask_resolves_to_task (host : Host) (name description : String)
    (response : Response) (props : List (String × JsValue)) (t : JsValue)
    (hfetch : host.fetch (addTaskRequest name description) = Await.fulfilled response)
    (hok : response.ok = true)
    (hjson : response.json = Await.fulfilled (JsValue.obj props))
    (htask : props.lookup "task" = some t) :
    addTask host name description =
      (Await.fulfilled t, [Event.fetch (addTaskRequest name description), Event.json]) := by
  apply addTask_of_read_ok host name description response (JsValue.obj props) t hfetch hok hjson
  simp [readTask, htask]

/-- Scenario 3 of the specification: empty strings, status 200, and the task
with `id` 2 comes back unchanged. -/
theorem addTask_resolves_to_task_witness :
    addTask (hostSettling (Await.fulfilled (replyWith 200
        (Await.fulfilled (JsValue.obj [("task", emptyTask)]))))) "" "" =
      (Await.fulfilled emptyTask, [Event.fetch (addTaskRequest "" ""), Event.json]) :=
  addTask_resolves_to_task _ "" "" _ [("task", emptyTask)] emptyTask rfl rfl rfl rfl

/-- Claim C2. For all `name` and `description` and every reply whose `ok` flag
is false (a status below 200 or from 300 on), whatever its body and however
`json()` would settle, `addTask` fails: it rejects with an error that carries
exactly the status of the reply, resolves to no value, and never reads the
body. -/
theorem addTask_fails_on_bad_status (host : Host) (name description : String)
    (response : Response)
    (hfetch : host.fetch (addTaskRequest name description) = Await.fulfilled response)
    (hok : response.ok = false) :
    (∃ err, (addTask host name description).1 = Await.rejected err ∧
      carriedStatus err = some response.status) ∧
    (∀ value, (addTask host name description).1 ≠ Await.fulfilled value) ∧
    (addTask host name description).2.filter Event.isJson = [] := by
  rw [addTask_of_not_ok host name description response hfetch hok]
  exact ⟨⟨_, rfl, carriedStatus_newError response.status⟩, fun value h => (by cases h), rfl⟩

/-- Scenario 2 of the specification, status 500 with the body `{}`, and status
404 with a body that is not JSON: the error carries 500, respectively 404, and
the body is not read. -/
theorem addTask_fails_on_bad_status_witness :
    ((∃ err, (addTask (hostSettling (Await.fulfilled (replyWith 500
          (Await.fulfilled (JsValue.obj []))))) "Finish report"
          "Prepare quarterly report").1 = Await.rejected err ∧
        carriedStatus err = some 500) ∧
      (addTask (hostSettling (Await.fulfilled (replyWith 500
          (Await.fulfilled (JsValue.obj []))))) "Finish report"
          "Prepare quarterly report").2.filter Event.isJson = []) ∧
    ((∃ err, (addTask (hostSettling (Await.fulfilled (replyWith 404
          (Await.rejected syntaxError)))) "a" "b").1 = Await.rejected err ∧
        carriedStatus err = some 404) ∧
      (addTask (hostSettling (Await.fulfilled (replyWith 404
          (Await.rejected syntaxError)))) "a" "b").2.filter Event.isJson = []) :=
  have h500 := addTask_fails_on_bad_status
    (hostSettling (Await.fulfilled (replyWith 500 (Await.fulfilled (JsValue.obj [])))))
    "Finish report" "Prepare quarterly report"
    (replyWith 500 (Await.fulfilled (JsValue.obj []))) rfl rfl
  have h404 := addTask_fails_on_bad_status
    (hostSettling (Await.fulfilled (replyWith 404 (Await.rejected syntaxError)))) "a" "b"
    (replyWith 404 (Await.rejected syntaxError)) rfl rfl
  ⟨⟨h500.1, h500.2.2⟩, ⟨h404.1, h404.2.2⟩⟩

/-- Claim C3. When `fetch` itself fails with `e`, `addTask` fails with that
same `e`, and it resolves to no value. -/
theorem addTask_propagates_fetch_error (host : Host) (name description : String)
    (e : JsValue)
    (hfetch : host.fetch (addTaskRequest name description) = Await.rejected e) :
    (addTask host name description).1 = Await.rejected e ∧
    ∀ value, (addTask host name description).1 ≠ Await.fulfilled value := by
  rw [addTask_of_fetch_rejected host name description e hfetch]
  exact ⟨rfl, fun value h => by cases h⟩

/-- A refused connection: the TypeError of `fetch` reaches the caller as it is. -/
theorem addTask_propagates_fetch_error_witness :
    (addTask (hostSettling (Await.rejected failedToFetch)) "a" "b").1 =
      Await.rejected failedToFetch ∧
    ∀ value, (addTask (hostSettling (Await.rejected failedToFetch)) "a" "b").1 ≠
      Await.fulfilled value :=
  addTask_propagates_fetch_error (hostSettling (Await.rejected failedToFetch)) "a" "b"
    failedToFetch rfl

/-- Claim C4. For every reply with `ok` true whose `json()` fails with `p` (the
body is not valid JSON), `addTask` fails with `p` and resolves to no value. -/
theorem addTask_propagates_parse_error (host : Host) (name description : String)
    (response : Response) (p : JsValue)
    (hfetch : host.fetch (addTaskRequest name description) = Await.fulfilled response)
    (hok : response.ok = true)
    (hjson : response.json = Await.rejected p) :
    (addTask host name description).1 = Await.rejected p ∧
    ∀ value, (addTask host name description).1 ≠ Await.fulfilled value := by
  rw [addTask_of_json_rejected host name description response p hfetch hok hjson]
  exact ⟨rfl, fun value h => by cases h⟩

/-- Status 200 with a body that is not JSON: the SyntaxError reaches the caller. -/
theorem addTask_propagates_parse_error_witness :
    (addTask (hostSettling (Await.fulfilled (replyWith 200 (Await.rejected syntaxError))))
        "a" "b").1 = Await.rejected syntaxError ∧
    ∀ value, (addTask (hostSettling (Await.fulfilled (replyWith 200
        (Await.rejected syntaxError)))) "a" "b").1 ≠ Await.fulfilled value :=
  addTask_propagates_parse_error _ "a" "b" (replyWith 200 (Await.rejected syntaxError))
    syntaxError rfl rfl rfl

/-- Claim C5. The request handed to `fetch` is the first interaction of every
run: path `/api/tasks`, method POST, the single header
`Content-Type: application/json`, and as body the JSON text of an object with
the fields `name` and `description`, in this order, each the quoted argument;
the two arguments can be read back from the request. -/
theorem addTask_request_sent (host : Host) (name description : String) :
    (addTask host name description).2.head? = some (Event.fetch
      { url := "/api/tasks"
        method := "POST"
        headers := [("Content-Type", "application/json")]
        body := "\x7b\"name\":" ++ quoteJSONString name ++ ",\"description\":" ++
          quoteJSONString description ++ "\x7d" }) ∧
    ∀ (host2 : Host) (name2 description2 : String),
      (addTask host2 name2 description2).2.head? = (addTask host name description).2.head? →
        name2 = name ∧ description2 = description := by
  refine ⟨?_, ?_⟩
  · rw [addTask_trace_head, ← addTaskRequest_body]
    rfl
  · intro host2 name2 description2 h
    rw [addTask_trace_head, addTask_trace_head] at h
    injection h with h
    injection h with h
    exact body_inj name2 description2 name description (congrArg Request.body h)

/-- Scenario 1 of the specification: the request that is sent, and that it is
not the request of the call with the two arguments exchanged. -/
theorem addTask_request_sent_witness :
    (addTask (hostSettling Await.pending) "Finish report" "Prepare quarterly report").2.head? =
      some (Event.fetch
        { url := "/api/tasks"
          method := "POST"
          headers := [("Content-Type", "application/json")]
          body := "\x7b\"name\":\"Finish report\",\"description\":\"Prepare quarterly report\"\x7d" }) ∧
    (addTask (hostSettling Await.pending) "Prepare quarterly report" "Finish report").2.head? ≠
      (addTask (hostSettling Await.pending) "Finish report" "Prepare quarterly report").2.head? :=
  ⟨(addTask_request_sent (hostSettling Await.pending) "Finish report"
      "Prepare quarterly report").1,
   fun h => absurd ((addTask_request_sent (hostSettling Await.pending) "Finish report"
      "Prepare quarterly report").2 _ _ _ h).1 (by decide)⟩

/-- Claim C6. A failure of the `try` block, whatever its cause, is exactly a
failure of `addTask` with the same error (none is swallowed); and when
`addTask` fails with `e`, the run has exactly one call of `console.error`, its
arguments are the label and `e`, and it is the last interaction of the run. -/
theorem addTask_logs_then_rethrows (host : Host) (name description : String) (e : JsValue) :
    ((addTaskTry host name description).1 = Completion.threw e ↔
      (addTask host name description).1 = Await.rejected e) ∧
    ((addTask host name description).1 = Await.rejected e →
      (addTask host name description).2.filter Event.isConsoleError =
        [Event.consoleError [JsValue.str catchLabel, e]] ∧
      (addTask host name description).2.getLast? =
        some (Event.consoleError [JsValue.str catchLabel, e])) := by
  have hiff : (addTaskTry host name description).1 = Completion.threw e ↔
      (addTask host name description).1 = Await.rejected e := by
    rw [addTask_eq_of_try]
    cases h : (addTaskTry host name description).1 with
    | returned value => simp
    | pending => simp
    | threw e2 => simp
  refine ⟨hiff, fun hrej => ?_⟩
  have hthrew := hiff.mpr hrej
  have htrace : (addTask host name description).2 = (addTaskTry host name description).2 ++
      [Event.consoleError [JsValue.str catchLabel, e]] := by
    rw [addTask_eq_of_try, hthrew]
  rw [htrace]
  rcases addTaskTry_trace host name description with h2 | h2 <;> rw [h2] <;> exact ⟨rfl, rfl⟩

/-- The three causes of failure, on concrete replies: each is logged once, last,
and reaches the caller unchanged. -/
theorem addTask_logs_then_rethrows_witness :
    ((addTask (hostSettling (Await.rejected failedToFetch)) "a" "b").2.filter
        Event.isConsoleError =
        [Event.consoleError [JsValue.str catchLabel, failedToFetch]] ∧
      (addTask (hostSettling (Await.rejected failedToFetch)) "a" "b").2.getLast? =
        some (Event.consoleError [JsValue.str catchLabel, failedToFetch])) ∧
    ((addTask (hostSettling (Await.fulfilled (replyWith 500 (Await.fulfilled (JsValue.obj [])))))
        "a" "b").2.filter Event.isConsoleError =
        [Event.consoleError [JsValue.str catchLabel,
          JsValue.error "Error" "HTTP error! status: 500" []]] ∧
      (addTask (hostSettling (Await.fulfilled (replyWith 500 (Await.fulfilled (JsValue.obj [])))))
        "a" "b").2.getLast? =
        some (Event.consoleError [JsValue.str catchLabel,
          JsValue.error "Error" "HTTP error! status: 500" []])) ∧
    ((addTask (hostSettling (Await.fulfilled (replyWith 200 (Await.rejected syntaxError))))
        "a" "b").2.filter Event.isConsoleError =
        [Event.consoleError [JsValue.str catchLabel, syntaxError]] ∧
      (addTask (hostSettling (Await.fulfilled (replyWith 200 (Await.rejected syntaxError))))
        "a" "b").2.getLast? =
        some (Event.consoleError [JsValue.str catchLabel, syntaxError])) :=
  ⟨(addTask_logs_then_rethrows _ "a" "b" failedToFetch).2 rfl,
   (addTask_logs_then_rethrows _ "a" "b"
      (JsValue.error "Error" "HTTP error! status: 500" [])).2 rfl,
   (addTask_logs_then_rethrows _ "a" "b" syntaxError).2 rfl⟩

/-- Claim C7. For every reply with `ok` true whose body parses to an object
without a `task` field, `addTask` resolves to `undefined`; the run is the
request and the read of the body, nothing is sent to `console.error`. -/
theorem addTask_resolves_to_undefined (host : Host) (name description : String)
    (response : Response) (props : List (String × JsValue))
    (hfetch : host.fetch (addTaskRequest name description) = Await.fulfilled response)
    (hok : response.ok = true)
    (hjson : response.json = Await.fulfilled (JsValue.obj props))
    (htask : props.lookup "task" = none) :
    addTask host name description =
      (Await.fulfilled JsValue.undefined,
        [Event.fetch (addTaskRequest name description), Event.json]) := by
  apply addTask_of_read_ok host name description response (JsValue.obj props) _ hfetch hok hjson
  simp [readTask, htask]

/-- Status 200 with the body `{"id": 2}`: the call resolves to `undefined`. -/
theorem addTask_resolves_to_undefined_witness :
    addTask (hostSettling (Await.fulfilled (replyWith 200
        (Await.fulfilled (JsValue.obj [("id", JsValue.num (JsNumber.finite 2))]))))) "a" "b" =
      (Await.fulfilled JsValue.undefined, [Event.fetch (addTaskRequest "a" "b"), Event.json]) :=
  addTask_resolves_to_undefined _ "a" "b" _ [("id", JsValue.num (JsNumber.finite 2))]
    rfl rfl rfl rfl

/-- Claim C8. In every run of `addTask`, however it ends, `fetch` is called
exactly once, with the request of the call, and the body is read at most once;
after a reply whose `ok` flag is false the body is not read at all. -/
theorem addTask_single_request (host : Host) (name description : String) :
    (addTask host name description).2.filter Event.isFetch =
      [Event.fetch (addTaskRequest name description)] ∧
    ((addTask host name description).2.filter Event.isJson).length ≤ 1 ∧
    ∀ response, host.fetch (addTaskRequest name description) = Await.fulfilled response →
      response.ok = false → (addTask host name description).2.filter Event.isJson = [] := by
  refine ⟨?_, ?_, ?_⟩
  · rcases addTask_trace host name description with h | ⟨e, -, -, h⟩ <;>
    rcases addTaskTry_trace host name description with h2 | h2 <;>
    rw [h, h2] <;> rfl
  · rcases addTask_trace host name description with h | ⟨e, -, -, h⟩ <;>
    rcases addTaskTry_trace host name description with h2 | h2 <;>
    rw [h, h2] <;> simp [List.filter, Event.isJson]
  · intro response hfetch hok
    rw [addTask_of_not_ok host name description response hfetch hok]
    rfl

/-- The four ways a run ends, on concrete replies: one call of `fetch` in each,
and no read of the body after status 500. -/
theorem addTask_single_request_witness :
    ((addTask (hostSettling (Await.fulfilled (replyWith 200
        (Await.fulfilled (JsValue.obj [("task", emptyTask)]))))) "a" "b").2.filter
        Event.isFetch).length = 1 ∧
    ((addTask (hostSettling (Await.rejected failedToFetch)) "a" "b").2.filter
        Event.isFetch).length = 1 ∧
    ((addTask (hostSettling (Await.fulfilled (replyWith 200 (Await.rejected syntaxError))))
        "a" "b").2.filter Event.isFetch).length = 1 ∧
    ((addTask (hostSettling (Await.fulfilled (replyWith 500 (Await.rejected syntaxError))))
        "a" "b").2.filter Event.isFetch).length = 1 ∧
    (addTask (hostSettling (Await.fulfilled (replyWith 500 (Await.rejected syntaxError))))
        "a" "b").2.filter Event.isJson = [] :=
  ⟨congrArg List.length (addTask_single_request _ "a" "b").1,
   congrArg List.length (addTask_single_request _ "a" "b").1,
   congrArg List.length (addTask_single_request _ "a" "b").1,
   congrArg List.length (addTask_single_request _ "a" "b").1,
   (addTask_single_request (hostSettling (Await.fulfilled (replyWith 500
      (Await.rejected syntaxError)))) "a" "b").2.2 _ rfl rfl⟩

/-- Claim C9. For a reply whose `ok` flag is false and whose status is `s`, the
error of `addTask` is the generic `Error`, without further own properties,
whose message is `HTTP error! status: ` followed by the decimal digits of `s`;
two such replies with different statuses give different messages. -/
theorem addTask_status_message (host1 host2 : Host) (name1 description1 : String)
    (name2 description2 : String) (response1 response2 : Response)
    (hfetch1 : host1.fetch (addTaskRequest name1 description1) = Await.fulfilled response1)
    (hfetch2 : host2.fetch (addTaskRequest name2 description2) = Await.fulfilled response2)
    (hok1 : response1.ok = false) (hok2 : response2.ok = false) :
    (addTask host1 name1 description1).1 = Await.rejected (JsValue.error "Error"
      ("HTTP error! status: " ++ numberToString response1.status) []) ∧
    (addTask host2 name2 description2).1 = Await.rejected (JsValue.error "Error"
      ("HTTP error! status: " ++ numberToString response2.status) []) ∧
    (response1.status ≠ response2.status →
      "HTTP error! status: " ++ numberToString response1.status ≠
        "HTTP error! status: " ++ numberToString response2.status) := by
  rw [addTask_of_not_ok host1 name1 description1 response1 hfetch1 hok1,
    addTask_of_not_ok host2 name2 description2 response2 hfetch2 hok2]
  exact ⟨rfl, rfl, fun hne h => hne (statusMessage_inj _ _ h)⟩

/-- Statuses 404 and 500: the two messages, and that they differ. -/
theorem addTask_status_message_witness :
    (addTask (hostSettling (Await.fulfilled (replyWith 404 Await.pending))) "a" "b").1 =
      Await.rejected (JsValue.error "Error" "HTTP error! status: 404" []) ∧
    (addTask (hostSettling (Await.fulfilled (replyWith 500 Await.pending))) "a" "b").1 =
      Await.rejected (JsValue.error "Error" "HTTP error! status: 500" []) ∧
    "HTTP error! status: " ++ numberToString 404 ≠
      "HTTP error! status: " ++ numberToString 500 :=
  have h := addTask_status_message
    (hostSettling (Await.fulfilled (replyWith 404 Await.pending)))
    (hostSettling (Await.fulfilled (replyWith 500 Await.pending))) "a" "b" "a" "b"
    (replyWith 404 Await.pending) (replyWith 500 Await.pending) rfl rfl rfl rfl
  ⟨h.1, h.2.1, h.2.2 (by decide)⟩

/-- Claim C10. For a reply with `ok` true whose body parses to `null`, reading
`task` raises a TypeError: `addTask` sends it to `console.error` and fails with
it. When the body parses to a number, a string, a boolean or an array,
`addTask` resolves to `undefined`. -/
theorem addTask_on_non_object_body (host : Host) (name description : String)
    (response : Response)
    (hfetch : host.fetch (addTaskRequest name description) = Await.fulfilled response)
    (hok : response.ok = true) :
    (response.json = Await.fulfilled JsValue.null →
      addTask host name description =
        (Await.rejected (JsValue.error "TypeError" (host.typeErrorMessage JsValue.null) []),
          [Event.fetch (addTaskRequest name description), Event.json,
           Event.consoleError [JsValue.str catchLabel,
             JsValue.error "TypeError" (host.typeErrorMessage JsValue.null) []]])) ∧
    (∀ data, response.json = Await.fulfilled data →
      ((∃ n, data = JsValue.num n) ∨ (∃ text, data = JsValue.str text) ∨
        (∃ b, data = JsValue.bool b) ∨ (∃ items, data = JsValue.arr items)) →
      addTask host name description =
        (Await.fulfilled JsValue.undefined,
          [Event.fetch (addTaskRequest name description), Event.json])) := by
  refine ⟨fun hjson => ?_, fun data hjson hdata => ?_⟩
  · exact addTask_of_read_error host name description response JsValue.null _ hfetch hok
      hjson rfl
  · apply addTask_of_read_ok host name description response data _ hfetch hok hjson
    rcases hdata with ⟨n, rfl⟩ | ⟨text, rfl⟩ | ⟨b, rfl⟩ | ⟨items, rfl⟩ <;> rfl

/-- Status 200 with the body `null` fails with the TypeError; with the body
`[null]` the call resolves to `undefined`. -/
theorem addTask_on_non_object_body_witness :
    addTask (hostSettling (Await.fulfilled (replyWith 200 (Await.fulfilled JsValue.null))))
        "a" "b" =
      (Await.rejected (JsValue.error "TypeError"
          "Cannot read properties of null (reading \x27task\x27)" []),
        [Event.fetch (addTaskRequest "a" "b"), Event.json,
         Event.consoleError [JsValue.str catchLabel, JsValue.error "TypeError"
          "Cannot read properties of null (reading \x27task\x27)" []]]) ∧
    addTask (hostSettling (Await.fulfilled (replyWith 200
        (Await.fulfilled (JsValue.arr [JsValue.null]))))) "a" "b" =
      (Await.fulfilled JsValue.undefined, [Event.fetch (addTaskRequest "a" "b"), Event.json]) :=
  ⟨(addTask_on_non_object_body _ "a" "b"
      (replyWith 200 (Await.fulfilled JsValue.null)) rfl rfl).1 rfl,
   (addTask_on_non_object_body _ "a" "b"
      (replyWith 200 (Await.fulfilled (JsValue.arr [JsValue.null]))) rfl rfl).2 _ rfl
      (Or.inr (Or.inr (Or.inr ⟨_, rfl⟩)))⟩

end TaskApi
